import Mathlib

/-!
Verification of the `ms-agent-framework` skill scripts.

This file gives a shallow embedding, in Lean 4, of the self-contained logic
of the three Python template scripts:

  * `scripts/tool_agent_template.py` — pure tool functions
    (`calculate_area`, `convert_temperature`, `search_mock`) and the
    environment-variable checks of `main`;
  * `scripts/conversation_loop.py` — the `calculate` expression guard, the
    slash-command dispatch of `ConversationLoop.run`, `clear_history`,
    `show_tools`, and one iteration of the interactive loop;
  * `scripts/basic_agent_template.py` — shares the environment-variable
    check shape of the other two `main` functions.

Python floats are embedded as exact rationals (`ℚ`); the inputs the claims
touch are exactly representable, so no rounding is lost.  Python strings are
embedded as `String` with list-of-characters operations (`lower`, `strip`,
`startswithSlash`) that mirror the Python methods `str.lower`, `str.strip`
and `str.startswith('/')`.  The external SDK calls (`eval`, the Azure client,
`agent.run_stream`) are modelled as explicit parameters or events: the
embedded control flow quantifies over every behaviour of those externals.
-/

/-! ## Embeddings of the Python string methods used by the scripts -/

/-- Embedding of Python `str.lower()` (character-wise lowercasing). -/
def lower (s : String) : String := ⟨s.data.map Char.toLower⟩

/-- Embedding of Python `str.strip()`: drop whitespace from both ends. -/
def strip (s : String) : String :=
  ⟨((s.data.dropWhile Char.isWhitespace).reverse.dropWhile Char.isWhitespace).reverse⟩

/-- Embedding of Python `s.startswith('/')`: true iff the first character is `/`. -/
def startswithSlash (s : String) : Bool :=
  match s.data with
  | [] => false
  | c :: _ => c == '/'

/-! ## `tool_agent_template.py` — pure tool functions -/

/-- `calculate_area(length, width)` from `tool_agent_template.py` lines 39-49:
returns `length * width`. -/
def calculate_area (length width : ℚ) : ℚ := length * width

/-- `convert_temperature(celsius, to_fahrenheit=True)` from
`tool_agent_template.py` lines 52-65. -/
def convert_temperature (celsius : ℚ) (to_fahrenheit : Bool := true) : ℚ :=
  if to_fahrenheit then celsius * 9 / 5 + 32 else (celsius - 32) * 5 / 9

/-- One entry of the list returned by `search_mock`. -/
structure SearchResult where
  title : String
  snippet : String
deriving DecidableEq, Repr

/-- `search_mock(query, max_results=5)` from `tool_agent_template.py`
lines 68-85: a list comprehension over `range(min(max_results, 3))`.
Python `range` of a negative bound is empty, hence the `Int.toNat`. -/
def search_mock (query : String) (max_results : Int := 5) : List SearchResult :=
  (List.range (min max_results 3).toNat).map (fun i =>
    { title := "Result " ++ toString (i + 1) ++ " for " ++ "\x27" ++ query ++ "\x27",
      snippet := "This is a sample result for your search query." })

/-! ## `conversation_loop.py` — the `calculate` tool -/

/-- The safe character set of `calculate` (`conversation_loop.py` line 54):
`allowed_chars = set("0123456789+-*/(). ")`. -/
def allowed_chars : List Char := "0123456789+-*/(). ".data

/-- `calculate(expression)` from `conversation_loop.py` lines 43-61.
The call to Python `eval` is external; it is passed in as `evalFn`,
which either returns the string rendering of the evaluated value
(`Except.ok`) or raises with message `e` (`Except.error e`).  The
character guard runs before `evalFn` is ever consulted. -/
def calculate (evalFn : String → Except String String) (expression : String) : String :=
  if expression.data.all (fun c => allowed_chars.contains c) then
    match evalFn expression with
    | Except.ok result => expression ++ " = " ++ result
    | Except.error e => "Error calculating: " ++ e
  else
    "Error: Expression contains invalid characters"

/-! ## `conversation_loop.py` — the interactive loop -/

/-- The name/description surface of one agent tool (what `show_tools` prints). -/
structure ToolInfo where
  name : String
  description : String
deriving DecidableEq, Repr

/-- The agent handle, as far as the loop observes it: its tool list. -/
structure Agent where
  tools : List ToolInfo
deriving DecidableEq, Repr

/-- The state of `ConversationLoop` (`conversation_loop.py` lines 64-69):
the agent handle and the conversation counter. -/
structure ConversationLoop where
  agent : Agent
  conversation_count : Nat
deriving DecidableEq, Repr

/-- `ConversationLoop.print_help` (lines 84-90): the printed lines. -/
def print_help : List String :=
  ["\nAvailable commands:",
   "  /help  - Show this help message",
   "  /clear - Clear conversation history",
   "  /tools - Show available tools",
   "  /quit  - Exit the conversation\n"]

/-- `ConversationLoop.show_tools` (lines 92-101): the printed lines. -/
def show_tools (st : ConversationLoop) : List String :=
  if st.agent.tools.isEmpty then
    ["\nNo tools available for this agent.\n"]
  else
    ("\nAvailable tools (" ++ toString st.agent.tools.length ++ "):")
      :: (st.agent.tools.map (fun t => "  • " ++ t.name ++ ": " ++ t.description) ++ [""])

/-- `ConversationLoop.clear_history` (lines 103-108): prints a notice and
resets `conversation_count` to 0.  Returns the new state and printed lines. -/
def clear_history (st : ConversationLoop) : ConversationLoop × List String :=
  ({ st with conversation_count := 0 }, ["\n[Conversation history cleared]\n"])

/-- Outcome of dispatching one (already stripped) input line, following the
branch structure of `ConversationLoop.run` lines 120-146. -/
inductive LineAction where
  | skip
  | quit
  | help
  | clear
  | tools
  | unknown (command : String)
  | forward (message : String)
deriving DecidableEq, Repr

/-- The dispatch of `ConversationLoop.run` lines 120-146: empty input is
skipped; a line starting with `/` is lowercased and matched against
`['/quit', '/exit']`, `'/help'`, `'/clear'`, `'/tools'`, else unknown;
anything else is forwarded to the agent. -/
def dispatch (userInput : String) : LineAction :=
  if userInput = "" then
    LineAction.skip
  else if startswithSlash userInput then
    let command := lower userInput
    if command = "/quit" ∨ command = "/exit" then LineAction.quit
    else if command = "/help" then LineAction.help
    else if command = "/clear" then LineAction.clear
    else if command = "/tools" then LineAction.tools
    else LineAction.unknown command
  else
    LineAction.forward userInput

/-- Result of the external `agent.run_stream` call inside one turn:
either it yields all its chunks, or it raises after yielding a prefix. -/
inductive StreamOutcome where
  | ok (chunks : List String)
  | raised (yielded : List String) (msg : String)
deriving DecidableEq, Repr

/-- What reaches one iteration of the `while True` loop of
`ConversationLoop.run`: an input line together with the behaviour the
stream would have if consulted, or an exception at `input()`. -/
inductive Event where
  | line (raw : String) (stream : StreamOutcome)
  | keyboardInterrupt
  | endOfFile
deriving DecidableEq, Repr

/-- Whether the iteration `continue`s the loop or `break`s out of it. -/
inductive LoopControl where
  | continueLoop
  | breakLoop
deriving DecidableEq, Repr

/-- One iteration of `ConversationLoop.run` (lines 114-173): returns the
new state, the loop control, and the lines printed during the iteration.
`except Exception` around the stream maps to the `StreamOutcome.raised`
branch (print the error, `continue`, no counter increment); the outer
`except KeyboardInterrupt` prints and continues; `except EOFError`
prints and breaks. -/
def runTurn (st : ConversationLoop) (ev : Event) :
    ConversationLoop × LoopControl × List String :=
  match ev with
  | Event.keyboardInterrupt =>
    (st, LoopControl.continueLoop, ["\n\nUse /quit to exit properly.\n"])
  | Event.endOfFile =>
    (st, LoopControl.breakLoop, ["\n\nGoodbye! Thanks for chatting.\n"])
  | Event.line raw stream =>
    match dispatch (strip raw) with
    | LineAction.skip => (st, LoopControl.continueLoop, [])
    | LineAction.quit =>
      (st, LoopControl.breakLoop, ["\nGoodbye! Thanks for chatting.\n"])
    | LineAction.help => (st, LoopControl.continueLoop, print_help)
    | LineAction.clear =>
      ((clear_history st).1, LoopControl.continueLoop, (clear_history st).2)
    | LineAction.tools => (st, LoopControl.continueLoop, show_tools st)
    | LineAction.unknown command =>
      (st, LoopControl.continueLoop,
        ["Unknown command: " ++ command, "Type /help for available commands.\n"])
    | LineAction.forward _ =>
      match stream with
      | StreamOutcome.ok chunks =>
        ({ st with conversation_count := st.conversation_count + 1 },
         LoopControl.continueLoop, ("Agent: " :: chunks) ++ ["", ""])
      | StreamOutcome.raised yielded msg =>
        (st, LoopControl.continueLoop,
         ("Agent: " :: yielded) ++ ["\n[Error: " ++ msg ++ "]"])

/-! ## Environment-variable checks of `main` -/

/-- Python truthiness of `os.environ.get(name)`: `None` (variable missing)
and the empty string are falsy. -/
def envTruthy : Option String → Bool
  | none => false
  | some s => !s.isEmpty

/-- How far `main` gets before touching the external SDK. -/
inductive MainStage where
  | abortEnv (msg : String)
  | constructClient
deriving DecidableEq, Repr

/-- The environment-variable phase of `main` (`conversation_loop.py`
lines 180-188, identically shaped in `tool_agent_template.py` lines
106-111 and `basic_agent_template.py` lines 29-37): if either variable
is missing or empty, print an error and return before creating the
client or the agent. -/
def mainEnvCheck (env : String → Option String) : MainStage :=
  if !(envTruthy (env "AZURE_OPENAI_ENDPOINT")) then
    MainStage.abortEnv "Error: AZURE_OPENAI_ENDPOINT environment variable not set"
  else if !(envTruthy (env "AZURE_OPENAI_DEPLOYMENT_NAME")) then
    MainStage.abortEnv "Error: AZURE_OPENAI_DEPLOYMENT_NAME environment variable not set"
  else
    MainStage.constructClient

/-! ## Helper lemmas -/

/-- Whatever `eval` does, `calculate` returns the invalid-characters error
exactly when the expression has a character outside `allowed_chars`. -/
theorem calculate_invalid_iff_aux (fn : String → Except String String) (e : String) :
    calculate fn e = "Error: Expression contains invalid characters" ↔
      ∃ c ∈ e.data, c ∉ allowed_chars := by
  unfold calculate
  by_cases hall : e.data.all (fun c => allowed_chars.contains c) = true
  · rw [if_pos hall]
    rw [List.all_eq_true] at hall
    constructor
    · intro heq
      exfalso
      cases hfn : fn e with
      | ok result =>
        rw [hfn] at heq
        cases he : e.data with
        | nil =>
          have he' : e = "" := by
            cases e
            simp at he
            simp [he]
          rw [he'] at heq
          have hdata := congrArg String.data heq
          simp [String.data_append] at hdata
        | cons c t =>
          have hdata := congrArg String.data heq
          simp [String.data_append, he] at hdata
          have hc : c ∈ e.data := by rw [he]; exact List.mem_cons_self c t
          have hcall := hall c hc
          rw [hdata.1] at hcall
          exact absurd hcall (by decide)
      | error msg =>
        rw [hfn] at heq
        have hdata := congrArg String.data heq
        simp [String.data_append] at hdata
    · rintro ⟨c, hc, hnc⟩
      exact absurd (show c ∈ allowed_chars by simpa using hall c hc) hnc
  · rw [if_neg hall]
    constructor
    · intro _
      rw [List.all_eq_true] at hall
      push_neg at hall
      obtain ⟨c, hc, hnc⟩ := hall
      exact ⟨c, hc, by simpa using hnc⟩
    · intro _
      rfl

/-! ## Claim theorems -/

/-- Claim C1: `calculate` returns the string
`Error: Expression contains invalid characters` exactly for inputs holding
a character outside the safe set `0123456789+-*/(). `, and on such inputs
the expression is never evaluated (the result is independent of the
behaviour of `eval`). -/
theorem calculate_rejects_invalid_chars
    (f g : String → Except String String) (e : String) :
    (calculate f e = "Error: Expression contains invalid characters" ↔
      ∃ c ∈ e.data, c ∉ allowed_chars) ∧
    ((∃ c ∈ e.data, c ∉ allowed_chars) → calculate f e = calculate g e) := by
  refine ⟨calculate_invalid_iff_aux f e, fun h => ?_⟩
  rw [(calculate_invalid_iff_aux f e).mpr h, (calculate_invalid_iff_aux g e).mpr h]

/-- Claim C1 witness: at the concrete input `2+a` (with two different eval
behaviours), the guard fires. -/
theorem calculate_rejects_invalid_chars_witness :
    calculate (fun _ => Except.ok "4") "2+a" =
      "Error: Expression contains invalid characters" ∧
    ∃ c ∈ ("2+a" : String).data, c ∉ allowed_chars := by
  have h := calculate_rejects_invalid_chars
    (fun _ => Except.ok "4") (fun _ => Except.error "x") "2+a"
  have hex : ∃ c ∈ ("2+a" : String).data, c ∉ allowed_chars :=
    ⟨'a', by decide, by decide⟩
  exact ⟨h.1.mpr hex, hex⟩

/-- Claim C2 counterexample: the line `/exit` begins with a slash and its
lowercasing is outside the four-command set `{/help, /clear, /tools, /quit}`
named by the claim, yet the dispatch treats it as the quit command, not as
an unknown command. -/
theorem dispatch_exit_not_unknown :
    startswithSlash "/exit" = true ∧
    lower "/exit" = "/exit" ∧
    ("/exit" : String) ∉ (["/help", "/clear", "/tools", "/quit"] : List String) ∧
    dispatch "/exit" = LineAction.quit ∧
    dispatch "/exit" ≠ LineAction.unknown (lower "/exit") := by
  decide

/-- Claim C2 (amended): the fixed command set is
`{/quit, /exit, /help, /clear, /tools}`.  Every non-empty line beginning
with `/` is dispatched (after lowercasing) against that set: members
trigger their command action and are never forwarded to the agent, other
slash lines produce the unknown-command action and are never forwarded,
and non-empty lines not beginning with `/` are forwarded to the agent. -/
theorem dispatch_fixed_command_set (u : String) (hne : u ≠ "") :
    (startswithSlash u = true →
      ((lower u = "/quit" ∨ lower u = "/exit") → dispatch u = LineAction.quit) ∧
      (lower u = "/help" → dispatch u = LineAction.help) ∧
      (lower u = "/clear" → dispatch u = LineAction.clear) ∧
      (lower u = "/tools" → dispatch u = LineAction.tools) ∧
      (lower u ∉ (["/quit", "/exit", "/help", "/clear", "/tools"] : List String) →
        dispatch u = LineAction.unknown (lower u)) ∧
      (∀ m, dispatch u ≠ LineAction.forward m)) ∧
    (startswithSlash u = false → dispatch u = LineAction.forward u) := by
  constructor
  · intro hs
    have hd : dispatch u =
        (if lower u = "/quit" ∨ lower u = "/exit" then LineAction.quit
         else if lower u = "/help" then LineAction.help
         else if lower u = "/clear" then LineAction.clear
         else if lower u = "/tools" then LineAction.tools
         else LineAction.unknown (lower u)) := by
      simp [dispatch, hne, hs]
    rw [hd]
    refine ⟨?_, ?_, ?_, ?_, ?_, ?_⟩
    · intro h
      rw [if_pos h]
    · intro h
      rw [h]
      decide
    · intro h
      rw [h]
      decide
    · intro h
      rw [h]
      decide
    · intro h
      simp only [List.mem_cons, List.not_mem_nil, or_false, not_or] at h
      obtain ⟨h1, h2, h3, h4, h5⟩ := h
      simp [h1, h2, h3, h4, h5]
    · intro m
      split_ifs <;> simp
  · intro hs
    simp [dispatch, hne, hs]

/-- Claim C2 witness: at the concrete line `/help`, which is non-empty and
starts with a slash, the dispatch yields the help action. -/
theorem dispatch_fixed_command_set_witness :
    dispatch "/help" = LineAction.help := by
  have h := dispatch_fixed_command_set "/help" (by decide)
  exact (h.1 (by decide)).2.1 (by decide)

/-- Claim C3: converting 25 degrees Celsius with the default direction
(`to_fahrenheit = true`) yields 77 degrees Fahrenheit. -/
theorem convert_temperature_default_25 : convert_temperature 25 = 77 := by
  norm_num [convert_temperature]

/-- Claim C4: `calculate_area 5 3 = 15`, and in general
`calculate_area l w = l * w` for all lengths and widths. -/
theorem calculate_area_spec :
    calculate_area 5 3 = 15 ∧ ∀ l w : ℚ, calculate_area l w = l * w :=
  ⟨by norm_num [calculate_area], fun _ _ => rfl⟩

/-- Claim C5: whenever the endpoint variable or the deployment-name
variable is missing or empty (Python-falsy), `main` aborts in its
environment-check phase with one of the two concrete error messages and
never reaches client construction. -/
theorem main_env_check_aborts (env : String → Option String)
    (h : envTruthy (env "AZURE_OPENAI_ENDPOINT") = false ∨
         envTruthy (env "AZURE_OPENAI_DEPLOYMENT_NAME") = false) :
    mainEnvCheck env ≠ MainStage.constructClient ∧
    (mainEnvCheck env =
        MainStage.abortEnv "Error: AZURE_OPENAI_ENDPOINT environment variable not set" ∨
     mainEnvCheck env =
        MainStage.abortEnv "Error: AZURE_OPENAI_DEPLOYMENT_NAME environment variable not set") := by
  unfold mainEnvCheck
  rcases h with h | h
  · simp [h]
  · cases henv : envTruthy (env "AZURE_OPENAI_ENDPOINT") <;> simp [henv, h]

/-- Claim C5 witness: in the empty environment the check aborts. -/
theorem main_env_check_aborts_witness :
    mainEnvCheck (fun _ => none) ≠ MainStage.constructClient :=
  (main_env_check_aborts (fun _ => none) (Or.inl rfl)).1

/-- Claim C6: when the stream raises during a forwarded message, the
iteration catches it, prints the bracketed error line, continues the loop,
and leaves the state (in particular `conversation_count`) unchanged. -/
theorem stream_error_caught (st : ConversationLoop) (raw : String)
    (yielded : List String) (msg : String)
    (h1 : strip raw ≠ "") (h2 : startswithSlash (strip raw) = false) :
    runTurn st (Event.line raw (StreamOutcome.raised yielded msg)) =
      (st, LoopControl.continueLoop,
        ("Agent: " :: yielded) ++ ["\n[Error: " ++ msg ++ "]"]) ∧
    (runTurn st (Event.line raw (StreamOutcome.raised yielded msg))).1.conversation_count =
      st.conversation_count := by
  have hd : dispatch (strip raw) = LineAction.forward (strip raw) := by
    simp [dispatch, h1, h2]
  constructor
  · simp [runTurn, hd]
  · simp [runTurn, hd]

/-- Claim C6 witness: the concrete line `hello` with a raising stream
continues with the counter untouched. -/
theorem stream_error_caught_witness :
    runTurn ⟨⟨[]⟩, 0⟩ (Event.line "hello" (StreamOutcome.raised [] "boom")) =
      (⟨⟨[]⟩, 0⟩, LoopControl.continueLoop, ["Agent: ", "\n[Error: boom]"]) := by
  have h := stream_error_caught ⟨⟨[]⟩, 0⟩ "hello" [] "boom" (by decide) (by decide)
  rw [h.1]
  rfl

/-- Claim C7 counterexample: a `KeyboardInterrupt` during the interactive
loop does NOT terminate the loop — the handler prints
`Use /quit to exit properly.` and continues the iteration. -/
theorem keyboard_interrupt_not_terminating :
    runTurn ⟨⟨[]⟩, 0⟩ Event.keyboardInterrupt =
      (⟨⟨[]⟩, 0⟩, LoopControl.continueLoop, ["\n\nUse /quit to exit properly.\n"]) ∧
    LoopControl.continueLoop ≠ LoopControl.breakLoop :=
  ⟨rfl, by decide⟩

/-- Claim C7 (amended): a `KeyboardInterrupt` raised during the
interactive conversation loop is caught, a message telling the user to use
`/quit` is printed, and the loop continues (it does not terminate); the
state is unchanged. -/
theorem keyboard_interrupt_prints_continues (st : ConversationLoop) :
    runTurn st Event.keyboardInterrupt =
      (st, LoopControl.continueLoop, ["\n\nUse /quit to exit properly.\n"]) := rfl

/-- Claim C8: `search_mock` returns exactly `min max_results 3` results for
non-negative `max_results` (never more than 3, and the empty list for zero
or negative), each result carrying a title that mentions the query and the
fixed snippet text. -/
theorem search_mock_spec (q : String) (m : Int) :
    (0 ≤ m → ((search_mock q m).length : Int) = min m 3) ∧
    (search_mock q m).length ≤ 3 ∧
    (m ≤ 0 → search_mock q m = []) ∧
    ∀ r ∈ search_mock q m,
      (∃ pre post : String, r.title = pre ++ q ++ post) ∧
      r.snippet = "This is a sample result for your search query." := by
  refine ⟨?_, ?_, ?_, ?_⟩
  · intro h
    simp only [search_mock, List.length_map, List.length_range]
    omega
  · simp only [search_mock, List.length_map, List.length_range]
    omega
  · intro h
    have h0 : (min m 3).toNat = 0 := by omega
    simp [search_mock, h0]
  · intro r hr
    obtain ⟨i, hi, rfl⟩ := List.mem_map.1 hr
    exact ⟨⟨"Result " ++ toString (i + 1) ++ " for " ++ "\x27", "\x27", rfl⟩, rfl⟩

/-- Claim C8 witness: the default cap at the concrete query `Python` with
`max_results = 5`, and the empty result list at `max_results = -1`. -/
theorem search_mock_spec_witness :
    ((search_mock "Python" 5).length : Int) = min (5 : Int) 3 ∧
    search_mock "Python" (-1) = [] :=
  ⟨(search_mock_spec "Python" 5).1 (by norm_num),
   (search_mock_spec "Python" (-1)).2.2.1 (by norm_num)⟩

/-- Claim C9: under exact rational arithmetic, the two directions of
`convert_temperature` are mutually inverse. -/
theorem convert_temperature_roundtrip (t : ℚ) :
    convert_temperature (convert_temperature t true) false = t ∧
    convert_temperature (convert_temperature t false) true = t := by
  constructor <;> simp [convert_temperature]

/-- Claim C10: `clear_history` resets `conversation_count` to 0, leaves
the agent field (hence its tools) untouched, and prints only the cleared
notice. -/
theorem clear_history_frame (st : ConversationLoop) :
    (clear_history st).1.conversation_count = 0 ∧
    (clear_history st).1.agent = st.agent ∧
    (clear_history st).2 = ["\n[Conversation history cleared]\n"] :=
  ⟨rfl, rfl, rfl⟩
